import Mathlib

/-!
Shallow embedding of the finance-tracker backend
(`src/api/transactions.py`, `src/api/auth.py`, `src/api/dashboard.py`).

Modelling conventions:
  * SQLAlchemy tables become lists of records inside a `DB` state; `id`
    columns are `Nat`, autoincremented via `next_*_id` counters.
  * Python `datetime` values become `Int` instants (only their total order
    matters to the code under study); `func.now()` / `datetime.utcnow()`
    become an explicit `now` (resp. `monthStart`) parameter.
  * Python `float` amounts become `Int` (only additive structure and the
    branching structure of the code matter to the claims).
  * `HTTPException(status_code, detail)` becomes an `ApiError` value and
    fallible endpoints return `Except ApiError _`; an `.error` result
    carries no successor state, matching the fact that the exception is
    raised before any mutation is committed.
  * `query(...).filter(...)` chains become `List.filter` / `List.find?`
    with decidable predicates; `ORDER BY timestamp DESC` becomes a stable
    insertion sort (ties keep the underlying row order, as a SQLite table
    scan does).
  * Password hashing and JWT issuance are opaque capabilities of the
    source (`passlib`, `jose`); operations that use them take `hash`,
    `verify` and `issue` functions as parameters.
-/

namespace FinanceTracker

/-- Transaction type enum from `schemas.py` / `models.py`. -/
inductive TransactionType where
  | income
  | expense
deriving DecidableEq, Repr

/-- Row of the `users` table (`models.py`, class `User`). -/
structure User where
  id : Nat
  email : String
  hashed_password : String
  full_name : Option String
deriving DecidableEq, Repr

/-- Row of the `categories` table (`models.py`, class `Category`). -/
structure Category where
  id : Nat
  name : String
  color : Option String
deriving DecidableEq, Repr

/-- Row of the `transactions` table (`models.py`, class `Transaction`). -/
structure Transaction where
  id : Nat
  user_id : Nat
  category_id : Nat
  amount : Int
  description : Option String
  timestamp : Int
  type : TransactionType
deriving DecidableEq, Repr

/-- Row of the `budgets` table (`models.py`, class `Budget`). -/
structure Budget where
  id : Nat
  user_id : Nat
  category_id : Option Nat
  limit : Int
  period : String
  start_date : Int
  end_date : Option Int
deriving DecidableEq, Repr

/-- Request body `TransactionCreate` (`schemas.py`): also used by the PUT
endpoint. -/
structure TransactionCreate where
  amount : Int
  description : Option String
  timestamp : Option Int
  type : TransactionType
  category_id : Nat
deriving DecidableEq, Repr

/-- Request body `BudgetCreate` (`schemas.py`): also used by the PUT
endpoint. -/
structure BudgetCreate where
  limit : Int
  period : String
  start_date : Int
  end_date : Option Int
  category_id : Option Nat
deriving DecidableEq, Repr

/-- The database state: one list per table plus autoincrement counters. -/
structure DB where
  users : List User
  categories : List Category
  transactions : List Transaction
  budgets : List Budget
  next_user_id : Nat
  next_transaction_id : Nat
  next_budget_id : Nat
deriving DecidableEq, Repr

/-- Structured error corresponding to `HTTPException(status_code, detail)`. -/
structure ApiError where
  status : Nat
  detail : String
deriving DecidableEq, Repr

/-- Decidable equality of endpoint results, so that concrete runs can be
checked by evaluation. -/
instance {ε α : Type} [DecidableEq ε] [DecidableEq α] :
    DecidableEq (Except ε α) := fun a b =>
  match a, b with
  | .ok x, .ok y =>
    if h : x = y then isTrue (by rw [h])
    else isFalse (fun hh => h (by injection hh))
  | .error x, .error y =>
    if h : x = y then isTrue (by rw [h])
    else isFalse (fun hh => h (by injection hh))
  | .ok _, .error _ => isFalse (fun hh => by injection hh)
  | .error _, .ok _ => isFalse (fun hh => by injection hh)

/-- The 404 raised by the transaction endpoints when the filtered lookup
finds nothing. -/
def notFoundTransaction : ApiError := ⟨404, "Transaction not found"⟩

/-- The 404 raised by the budget endpoints when the filtered lookup finds
nothing. -/
def notFoundBudget : ApiError := ⟨404, "Budget not found"⟩

/-- The 404 raised when a referenced category id has no row. -/
def categoryNotFound : ApiError := ⟨404, "Category not found"⟩

/-- The 401 raised by `login` for both an unknown email and a wrong
password (`auth.py` line 97). -/
def invalidCredentials : ApiError := ⟨401, "Invalid credentials"⟩

/-- The 400 raised by `register` when the email is already taken
(`auth.py` line 83). -/
def emailAlreadyRegistered : ApiError := ⟨400, "Email already registered"⟩

/-- Model of `db.query(Category).filter(Category.id == cid).first()`. -/
def findCategory (db : DB) (cid : Nat) : Option Category :=
  db.categories.find? (fun c => decide (c.id = cid))

/-- Model of
`db.query(Transaction).filter(Transaction.id == tid, Transaction.user_id == uid).first()`. -/
def findOwnedTransaction (db : DB) (uid tid : Nat) : Option Transaction :=
  db.transactions.find? (fun t => decide (t.id = tid ∧ t.user_id = uid))

/-- Model of
`db.query(Budget).filter(Budget.id == bid, Budget.user_id == uid).first()`. -/
def findOwnedBudget (db : DB) (uid bid : Nat) : Option Budget :=
  db.budgets.find? (fun b => decide (b.id = bid ∧ b.user_id = uid))

/-- `create_transaction` (`transactions.py` lines 34-56): checks that the
category exists, then inserts the row; `timestamp or func.now()` defaults a
missing timestamp to `now`.  Note: the amount is NOT validated. -/
def create_transaction (uid : Nat) (req : TransactionCreate) (now : Int)
    (db : DB) : Except ApiError (Transaction × DB) :=
  match findCategory db req.category_id with
  | none => .error categoryNotFound
  | some _ =>
    let txn : Transaction :=
      { id := db.next_transaction_id
        user_id := uid
        category_id := req.category_id
        amount := req.amount
        description := req.description
        timestamp := req.timestamp.getD now
        type := req.type }
    .ok (txn, { db with
                transactions := db.transactions ++ [txn]
                next_transaction_id := db.next_transaction_id + 1 })

/-- Stable insert for descending order by timestamp: an element is placed
before the first strictly-later position whose timestamp is smaller, so
rows with equal timestamps keep their underlying order. -/
def insertTsDesc (t : Transaction) : List Transaction → List Transaction
  | [] => [t]
  | x :: xs =>
    if x.timestamp ≤ t.timestamp then t :: x :: xs
    else x :: insertTsDesc t xs

/-- Model of `ORDER BY Transaction.timestamp DESC` as a stable sort. -/
def sortTsDesc : List Transaction → List Transaction
  | [] => []
  | x :: xs => insertTsDesc x (sortTsDesc xs)

/-- `list_transactions` (`transactions.py` lines 58-67): filter by owner,
order by timestamp descending, then `offset(skip).limit(limit)`.  The
requested `limit` is applied as given (default 50) — there is no clamp. -/
def list_transactions (uid : Nat) (skip limit : Nat) (db : DB) :
    List Transaction :=
  (((sortTsDesc (db.transactions.filter
      (fun t => decide (t.user_id = uid)))).drop skip).take limit)

/-- `get_transaction` (`transactions.py` lines 69-76). -/
def get_transaction (uid tid : Nat) (db : DB) : Except ApiError Transaction :=
  match findOwnedTransaction db uid tid with
  | none => .error notFoundTransaction
  | some t => .ok t

/-- `update_transaction` (`transactions.py` lines 78-92): looks up the row
by id and owner, then overwrites `category_id`, `amount`, `description`,
`type`, and — via `req.timestamp or txn.timestamp` — the timestamp only
when one was supplied.  Note: the new `category_id` is NOT validated. -/
def update_transaction (uid tid : Nat) (req : TransactionCreate) (db : DB) :
    Except ApiError (Transaction × DB) :=
  match findOwnedTransaction db uid tid with
  | none => .error notFoundTransaction
  | some t =>
    let t' : Transaction :=
      { t with
        category_id := req.category_id
        amount := req.amount
        description := req.description
        type := req.type
        timestamp := req.timestamp.getD t.timestamp }
    .ok (t', { db with
               transactions := db.transactions.map
                 (fun x => if x.id = tid ∧ x.user_id = uid then t' else x) })

/-- `delete_transaction` (`transactions.py` lines 94-103). -/
def delete_transaction (uid tid : Nat) (db : DB) : Except ApiError DB :=
  match findOwnedTransaction db uid tid with
  | none => .error notFoundTransaction
  | some _ =>
    .ok { db with
          transactions := db.transactions.filter
            (fun t => decide (¬ (t.id = tid ∧ t.user_id = uid))) }

/-- `create_budget` (`transactions.py` lines 134-154): validates the
category only when one is provided; `limit`, `start_date` and `end_date`
are stored without validation. -/
def create_budget (uid : Nat) (req : BudgetCreate) (db : DB) :
    Except ApiError (Budget × DB) :=
  let catOk : Bool := match req.category_id with
    | some cid => (findCategory db cid).isSome
    | none => true
  if catOk then
    let b : Budget :=
      { id := db.next_budget_id
        user_id := uid
        category_id := req.category_id
        limit := req.limit
        period := req.period
        start_date := req.start_date
        end_date := req.end_date }
    .ok (b, { db with
              budgets := db.budgets ++ [b]
              next_budget_id := db.next_budget_id + 1 })
  else .error categoryNotFound

/-- `get_budget` (`transactions.py` lines 167-174). -/
def get_budget (uid bid : Nat) (db : DB) : Except ApiError Budget :=
  match findOwnedBudget db uid bid with
  | none => .error notFoundBudget
  | some b => .ok b

/-- `update_budget` (`transactions.py` lines 176-190): looks up the row by
id and owner, then overwrites every settable field.  Note: the new
`category_id` is NOT validated. -/
def update_budget (uid bid : Nat) (req : BudgetCreate) (db : DB) :
    Except ApiError (Budget × DB) :=
  match findOwnedBudget db uid bid with
  | none => .error notFoundBudget
  | some b =>
    let b' : Budget :=
      { b with
        category_id := req.category_id
        limit := req.limit
        period := req.period
        start_date := req.start_date
        end_date := req.end_date }
    .ok (b', { db with
               budgets := db.budgets.map
                 (fun x => if x.id = bid ∧ x.user_id = uid then b' else x) })

/-- `delete_budget` (`transactions.py` lines 156-165). -/
def delete_budget (uid bid : Nat) (db : DB) : Except ApiError DB :=
  match findOwnedBudget db uid bid with
  | none => .error notFoundBudget
  | some _ =>
    .ok { db with
          budgets := db.budgets.filter
            (fun b => decide (¬ (b.id = bid ∧ b.user_id = uid))) }

/-- Token response of the auth endpoints (`auth.py`, class `Token`). -/
structure Token where
  access_token : String
  token_type : String
deriving DecidableEq, Repr

/-- `register` (`auth.py` lines 77-89): rejects an already-present email
with a 400, otherwise stores `hash password` and returns a bearer token
for the fresh user id.  The response is the token, not the user record. -/
def register (hashFn : String → String) (issue : Nat → String)
    (email password : String) (db : DB) : Except ApiError (Token × DB) :=
  match db.users.find? (fun u => decide (u.email = email)) with
  | some _ => .error emailAlreadyRegistered
  | none =>
    let u : User :=
      { id := db.next_user_id
        email := email
        hashed_password := hashFn password
        full_name := none }
    .ok (⟨issue u.id, "bearer"⟩,
         { db with
           users := db.users ++ [u]
           next_user_id := db.next_user_id + 1 })

/-- `login` (`auth.py` lines 92-99): `if u is None or not verify_password(...)`
raises the same 401 in both cases. -/
def login (verify : String → String → Bool) (issue : Nat → String)
    (email password : String) (db : DB) : Except ApiError Token :=
  match db.users.find? (fun u => decide (u.email = email)) with
  | none => .error invalidCredentials
  | some u =>
    if verify password u.hashed_password then .ok ⟨issue u.id, "bearer"⟩
    else .error invalidCredentials

/-- Model of `query(func.sum(Transaction.amount)).filter(...).scalar()`:
SQL `SUM` over no rows is `NULL`, i.e. `none`. -/
def sumScalar (l : List Transaction) : Option Int :=
  if l.isEmpty then none else some ((l.map Transaction.amount).sum)

/-- Python's `x or 0` applied to an optional sum: `None` and a zero sum
both yield `0` (the two branches agree at `0`, matching Python truthiness). -/
def pyOr0 : Option Int → Int
  | none => 0
  | some v => if v = 0 then 0 else v

/-- Response of `dashboard_summary` (`dashboard.py`). -/
structure Summary where
  income_total : Int
  expense_total : Int
  month_income : Int
  month_expense : Int
deriving DecidableEq, Repr

/-- `dashboard_summary` (`dashboard.py` lines 33-64).  `monthStart` stands
for `datetime(now.year, now.month, 1)` computed from `datetime.utcnow()`,
i.e. the first day 00:00 UTC of the current calendar month. -/
def dashboard_summary (uid : Nat) (monthStart : Int) (db : DB) : Summary :=
  { income_total := pyOr0 (sumScalar (db.transactions.filter
      (fun t => decide (t.user_id = uid ∧ t.type = TransactionType.income))))
    expense_total := pyOr0 (sumScalar (db.transactions.filter
      (fun t => decide (t.user_id = uid ∧ t.type = TransactionType.expense))))
    month_income := pyOr0 (sumScalar (db.transactions.filter
      (fun t => decide (t.user_id = uid ∧ t.type = TransactionType.income ∧
                        monthStart ≤ t.timestamp))))
    month_expense := pyOr0 (sumScalar (db.transactions.filter
      (fun t => decide (t.user_id = uid ∧ t.type = TransactionType.expense ∧
                        monthStart ≤ t.timestamp)))) }

/-- One element of the `budget_usage` response (`dashboard.py`). -/
structure BudgetUsageRow where
  budget_id : Nat
  category_id : Option Nat
  period : String
  limit : Int
  start_date : Int
  end_date : Option Int
  spent : Int
deriving DecidableEq, Repr

/-- `budget_usage` (`dashboard.py` lines 94-124).  The `if budget.end_date:`
and `if budget.category_id:` guards use Python truthiness: a `None`
end date adds no filter, and a category filter is added only when the id
is present and nonzero. -/
def budget_usage (uid : Nat) (db : DB) : List BudgetUsageRow :=
  (db.budgets.filter (fun b => decide (b.user_id = uid))).map (fun b =>
    let base := db.transactions.filter
      (fun t => decide (t.user_id = uid ∧
                        t.type = TransactionType.expense ∧
                        b.start_date ≤ t.timestamp))
    let withEnd := match b.end_date with
      | some e => base.filter (fun t => decide (t.timestamp ≤ e))
      | none => base
    let withCat := match b.category_id with
      | some cid =>
        if cid ≠ 0 then withEnd.filter (fun t => decide (t.category_id = cid))
        else withEnd
      | none => withEnd
    { budget_id := b.id
      category_id := b.category_id
      period := b.period
      limit := b.limit
      start_date := b.start_date
      end_date := b.end_date
      spent := pyOr0 (sumScalar withCat) })

/-- Plain sum of the amounts of a list of rows: the value the spec's
aggregation formulas describe. -/
def sumAmounts (l : List Transaction) : Int :=
  (l.map Transaction.amount).sum

/-- Spec-side matching set for `budgetUsage`: the user's expense rows with
`timestamp >= startDate`, restricted to `timestamp <= endDate` when the
end date is set and to the budget's category when one is set. -/
def matchingTxns (uid : Nat) (db : DB) (b : Budget) : List Transaction :=
  let base := db.transactions.filter
    (fun t => decide (t.user_id = uid ∧
                      t.type = TransactionType.expense ∧
                      b.start_date ≤ t.timestamp))
  let withEnd := match b.end_date with
    | some e => base.filter (fun t => decide (t.timestamp ≤ e))
    | none => base
  match b.category_id with
  | some cid => withEnd.filter (fun t => decide (t.category_id = cid))
  | none => withEnd

/-- Spec-side value of the `spent` field of a `budgetUsage` row. -/
def spentSpec (uid : Nat) (db : DB) (b : Budget) : Int :=
  sumAmounts (matchingTxns uid db b)

/-- Matching set under the code's Python truthiness: as `matchingTxns`,
except that a stored category id 0 — which `if budget.category_id:`
treats like `None` — disables the category filter. -/
def matchingTxnsTruthy (uid : Nat) (db : DB) (b : Budget) : List Transaction :=
  let base := db.transactions.filter
    (fun t => decide (t.user_id = uid ∧
                      t.type = TransactionType.expense ∧
                      b.start_date ≤ t.timestamp))
  let withEnd := match b.end_date with
    | some e => base.filter (fun t => decide (t.timestamp ≤ e))
    | none => base
  match b.category_id with
  | some cid =>
    if cid ≠ 0 then withEnd.filter (fun t => decide (t.category_id = cid))
    else withEnd
  | none => withEnd

/-- The `spent` value `budget_usage` actually reports: the plain sum over
the truthiness-guarded matching set. -/
def spentTruthy (uid : Nat) (db : DB) (b : Budget) : Int :=
  sumAmounts (matchingTxnsTruthy uid db b)

/-- The row that a successful `create_transaction` inserts. -/
def newTransaction (uid : Nat) (req : TransactionCreate) (now : Int)
    (db : DB) : Transaction :=
  { id := db.next_transaction_id
    user_id := uid
    category_id := req.category_id
    amount := req.amount
    description := req.description
    timestamp := req.timestamp.getD now
    type := req.type }

/-- The row that a successful `create_budget` inserts. -/
def newBudget (uid : Nat) (req : BudgetCreate) (db : DB) : Budget :=
  { id := db.next_budget_id
    user_id := uid
    category_id := req.category_id
    limit := req.limit
    period := req.period
    start_date := req.start_date
    end_date := req.end_date }

/-- Serialized field names of the `Token` response model: the keys of the
JSON object a successful auth endpoint returns. -/
def Token.fields (t : Token) : List (String × String) :=
  [("access_token", t.access_token), ("token_type", t.token_type)]

/-! Concrete sample data for the closed instances below. -/

/-- Sample category with id 1. -/
def catFood : Category := ⟨1, "Food", none⟩

/-- Sample user with id 1. -/
def userAlice : User := ⟨1, "alice@example.com", "hpw1", none⟩

/-- Sample user with id 2. -/
def userBob : User := ⟨2, "bob@example.com", "hpw2", none⟩

/-- A transaction owned by user 2. -/
def txnBob : Transaction := ⟨5, 2, 1, 30, none, 10, .expense⟩

/-- A budget owned by user 2. -/
def budgetBob : Budget := ⟨7, 2, some 1, 100, "monthly", 0, none⟩

/-- Database holding entities of user 2, viewed from user 1. -/
def dbTwoUsers : DB := ⟨[userAlice, userBob], [catFood], [txnBob], [budgetBob], 3, 6, 8⟩

/-- Database with one user and one category and no entities yet. -/
def dbOneCat : DB := ⟨[userAlice], [catFood], [], [], 2, 1, 1⟩

/-- A create-transaction request with a negative amount. -/
def reqNeg : TransactionCreate := ⟨-5, none, none, .expense, 1⟩

/-- A transaction owned by user 1, id 1, category 1. -/
def txnAlice : Transaction := ⟨1, 1, 1, 50, none, 10, .expense⟩

/-- A budget owned by user 1, id 1, category 1. -/
def budgetAlice : Budget := ⟨1, 1, some 1, 100, "monthly", 0, none⟩

/-- Database where user 1 owns one transaction and one budget. -/
def dbAliceData : DB := ⟨[userAlice], [catFood], [txnAlice], [budgetAlice], 2, 2, 2⟩

/-- An update request pointing at nonexistent category 99. -/
def reqBadCat : TransactionCreate := ⟨60, none, none, .expense, 99⟩

/-- A budget update request pointing at nonexistent category 99. -/
def breqBadCat : BudgetCreate := ⟨100, "monthly", 0, none, some 99⟩

/-- A create-budget request with a negative limit and an end date before
the start date. -/
def reqBadBudget : BudgetCreate := ⟨-5, "monthly", 10, some 5, none⟩

/-- An update request with no timestamp, used to watch the frame of
`update_transaction`. -/
def reqUpd : TransactionCreate := ⟨7, none, none, .income, 1⟩

/-- The row `update_transaction` produces from `txnAlice` and `reqUpd`. -/
def txnUpdated : Transaction := ⟨1, 1, 1, 7, none, 10, .income⟩

/-- The database after updating `txnAlice` with `reqUpd`. -/
def dbAfterUpdate : DB := { dbAliceData with transactions := [txnUpdated] }

/-- Database with 101 transactions of user 1 sharing one timestamp. -/
def dbMany : DB :=
  { users := [userAlice]
    categories := [catFood]
    transactions := (List.range 101).map (fun i =>
      { id := i + 1, user_id := 1, category_id := 1, amount := 1,
        description := none, timestamp := 5, type := .expense })
    budgets := []
    next_user_id := 2
    next_transaction_id := 102
    next_budget_id := 1 }

/-- Concrete stand-in for the opaque password-hashing capability. -/
def hashW (p : String) : String := "h:" ++ p

/-- Concrete stand-in for the opaque verification capability, matching
`hashW`. -/
def verifyW (p h : String) : Bool := decide (h = hashW p)

/-- Concrete stand-in for the opaque token-issuing capability. -/
def issueW (uid : Nat) : String := "jwt" ++ toString uid

/-- Database with one registered user whose digest comes from `hashW`. -/
def dbAuth : DB :=
  ⟨[⟨1, "alice@example.com", hashW "pw1", none⟩], [], [], [], 2, 1, 1⟩

/-- A budget update that sets the category reference to id 0, which the
unconstrained `Optional[int]` request field accepts and `update_budget`
stores without validation. -/
def breqZeroCat : BudgetCreate := ⟨100, "monthly", 0, none, some 0⟩

/-- The budget row after `update_budget` stores category id 0. -/
def budgetZeroCat : Budget := ⟨1, 1, some 0, 100, "monthly", 0, none⟩

/-- The reachable database holding a budget whose category id is 0: one
`update_budget` call away from the well-formed `dbAliceData`. -/
def dbZeroCat : DB := { dbAliceData with budgets := [budgetZeroCat] }

/-- A second sample category with id 2. -/
def catLeisure : Category := ⟨2, "Leisure", none⟩

/-- Database with two budgets of user 1: one over its limit, one with no
matching transaction at all. -/
def dbBudgets : DB :=
  ⟨[userAlice], [catFood, catLeisure],
   [⟨1, 1, 1, 120, none, 10, .expense⟩],
   [⟨1, 1, some 1, 100, "monthly", 0, none⟩,
    ⟨2, 1, some 2, 50, "monthly", 0, none⟩],
   2, 2, 3⟩

/-! Helper lemmas. -/

/-- Python's `x or 0` on an optional value is just the default-0 read. -/
theorem pyOr0_eq_getD (o : Option Int) : pyOr0 o = o.getD 0 := by
  cases o with
  | none => rfl
  | some v =>
    by_cases h : v = 0 <;> simp [pyOr0, h]

/-- The SQL `SUM ... NULL`-to-`0` path computes the plain sum. -/
theorem pyOr0_sumScalar (l : List Transaction) :
    pyOr0 (sumScalar l) = sumAmounts l := by
  cases l with
  | nil => rfl
  | cons x xs => simp [sumScalar, pyOr0_eq_getD, sumAmounts]

/-- Splitting a user's rows by transaction type splits the sum: every row
of the user lands in exactly one of the income / expense totals. -/
theorem sumAmounts_split_type (uid : Nat) (l : List Transaction) :
    sumAmounts (l.filter
        (fun t => decide (t.user_id = uid ∧ t.type = TransactionType.income))) +
      sumAmounts (l.filter
        (fun t => decide (t.user_id = uid ∧ t.type = TransactionType.expense))) =
      sumAmounts (l.filter (fun t => decide (t.user_id = uid))) := by
  induction l with
  | nil => rfl
  | cons x xs ih =>
    by_cases hu : x.user_id = uid
    · cases hx : x.type with
      | income =>
        simp only [List.filter_cons, hu, hx, and_true, and_false,
          decide_eq_true_eq, sumAmounts, List.map_cons, List.sum_cons,
          reduceCtorEq, and_self, decide_True, decide_False, if_true,
          if_false, reduceIte] at *
        omega
      | expense =>
        simp only [List.filter_cons, hu, hx, and_true, and_false,
          decide_eq_true_eq, sumAmounts, List.map_cons, List.sum_cons,
          reduceCtorEq, and_self, decide_True, decide_False, if_true,
          if_false, reduceIte] at *
        omega
    · simp only [List.filter_cons, hu, false_and, decide_False, if_false,
        decide_eq_true_eq, Bool.false_eq_true, reduceIte, ih]

/-- Inserting into the descending-by-timestamp order is a permutation. -/
theorem insertTsDesc_perm (t : Transaction) (l : List Transaction) :
    List.Perm (insertTsDesc t l) (t :: l) := by
  induction l with
  | nil => rfl
  | cons x xs ih =>
    rw [insertTsDesc]
    by_cases hle : x.timestamp ≤ t.timestamp
    · rw [if_pos hle]
    · rw [if_neg hle]
      exact (List.Perm.cons x ih).trans (List.Perm.swap t x xs)

/-- The descending sort is a permutation of its input. -/
theorem sortTsDesc_perm (l : List Transaction) :
    List.Perm (sortTsDesc l) l := by
  induction l with
  | nil => rfl
  | cons x xs ih =>
    exact (insertTsDesc_perm x (sortTsDesc xs)).trans (List.Perm.cons x ih)

/-- Insertion preserves descending sortedness by timestamp. -/
theorem pairwise_insertTsDesc {t : Transaction} {l : List Transaction}
    (h : l.Pairwise (fun a b => b.timestamp ≤ a.timestamp)) :
    (insertTsDesc t l).Pairwise (fun a b => b.timestamp ≤ a.timestamp) := by
  induction l with
  | nil => simp [insertTsDesc]
  | cons x xs ih =>
    rw [insertTsDesc]
    have hx := List.pairwise_cons.mp h
    by_cases hle : x.timestamp ≤ t.timestamp
    · rw [if_pos hle]
      refine List.Pairwise.cons ?_ h
      intro y hy
      rcases List.mem_cons.mp hy with rfl | hy'
      · exact hle
      · exact le_trans (hx.1 y hy') hle
    · rw [if_neg hle]
      refine List.Pairwise.cons ?_ (ih hx.2)
      intro y hy
      have hmem := (insertTsDesc_perm t xs).mem_iff.mp hy
      rcases List.mem_cons.mp hmem with rfl | hy'
      · omega
      · exact hx.1 y hy'

/-- The descending sort produces a timestamp-descending list. -/
theorem pairwise_sortTsDesc (l : List Transaction) :
    (sortTsDesc l).Pairwise (fun a b => b.timestamp ≤ a.timestamp) := by
  induction l with
  | nil => simp [sortTsDesc]
  | cons x xs ih => exact pairwise_insertTsDesc ih

/-! Claim theorems. -/

/-- Claim C1: for distinct users A and B, whenever every transaction row
carrying the looked-up id belongs to B (which covers both "B owns it" and,
vacuously, "no such id exists"), user A's getById, update and delete
return the very same `notFoundTransaction` error value that a missing id
produces; identically for budgets with `notFoundBudget`.  Since the
results are one constant error value, the two situations are
indistinguishable to A. -/
theorem C1_ownership_fold (A B : Nat) (db : DB) (tid bid : Nat)
    (req : TransactionCreate) (breq : BudgetCreate)
    (hAB : A ≠ B)
    (ht : ∀ t ∈ db.transactions, t.id = tid → t.user_id = B)
    (hb : ∀ b ∈ db.budgets, b.id = bid → b.user_id = B) :
    get_transaction A tid db = .error notFoundTransaction ∧
    update_transaction A tid req db = .error notFoundTransaction ∧
    delete_transaction A tid db = .error notFoundTransaction ∧
    get_budget A bid db = .error notFoundBudget ∧
    update_budget A bid breq db = .error notFoundBudget ∧
    delete_budget A bid db = .error notFoundBudget := by
  have hft : findOwnedTransaction db A tid = none := by
    unfold findOwnedTransaction
    rw [List.find?_eq_none]
    intro t htm
    simp only [decide_eq_true_eq, not_and]
    intro hid huid
    exact hAB (huid.symm.trans (ht t htm hid))
  have hfb : findOwnedBudget db A bid = none := by
    unfold findOwnedBudget
    rw [List.find?_eq_none]
    intro b hbm
    simp only [decide_eq_true_eq, not_and]
    intro hid huid
    exact hAB (huid.symm.trans (hb b hbm hid))
  refine ⟨?_, ?_, ?_, ?_, ?_, ?_⟩ <;>
    simp [get_transaction, update_transaction, delete_transaction,
          get_budget, update_budget, delete_budget, hft, hfb]

/-- Witness for C1: user 1 probing the transaction and budget of user 2. -/
theorem C1_witness :
    get_transaction 1 5 dbTwoUsers = .error notFoundTransaction ∧
    update_transaction 1 5 reqUpd dbTwoUsers = .error notFoundTransaction ∧
    delete_transaction 1 5 dbTwoUsers = .error notFoundTransaction ∧
    get_budget 1 7 dbTwoUsers = .error notFoundBudget ∧
    update_budget 1 7 breqBadCat dbTwoUsers = .error notFoundBudget ∧
    delete_budget 1 7 dbTwoUsers = .error notFoundBudget :=
  C1_ownership_fold 1 2 dbTwoUsers 5 7 reqUpd breqBadCat
    (by decide) (by decide) (by decide)

/-- Claim C2 is false on the code: `create_transaction` never validates
the amount.  At the concrete non-positive amount `-5` the operation
succeeds and persists a row instead of failing with InvalidAmount. -/
theorem C2_counterexample :
    reqNeg.amount ≤ 0 ∧
    (create_transaction 1 reqNeg 100 dbOneCat).map
      (fun p => p.2.transactions.length) = .ok 1 := by decide

/-- Claim C2 (amended): `create_transaction` validates only the category:
with an unknown `category_id` it fails with 404 Category not found and no
state is produced, and whenever the category exists it persists exactly
one new row carrying the request's amount unchecked — any amount,
including non-positive ones — with the timestamp defaulting to `now` when
omitted. -/
theorem C2_create_transaction (uid : Nat) (req : TransactionCreate)
    (now : Int) (db : DB) :
    (findCategory db req.category_id = none →
      create_transaction uid req now db = .error categoryNotFound) ∧
    ((findCategory db req.category_id).isSome →
      create_transaction uid req now db =
        .ok (newTransaction uid req now db,
             { db with
               transactions := db.transactions ++ [newTransaction uid req now db]
               next_transaction_id := db.next_transaction_id + 1 })) := by
  constructor
  · intro h
    simp [create_transaction, h]
  · intro h
    rcases Option.isSome_iff_exists.mp h with ⟨c, hc⟩
    simp [create_transaction, hc, newTransaction]

/-- Witness for C2: the negative-amount request is accepted verbatim. -/
theorem C2_witness :
    create_transaction 1 reqNeg 100 dbOneCat =
      .ok (newTransaction 1 reqNeg 100 dbOneCat,
           { dbOneCat with
             transactions := dbOneCat.transactions ++
               [newTransaction 1 reqNeg 100 dbOneCat]
             next_transaction_id := dbOneCat.next_transaction_id + 1 }) :=
  (C2_create_transaction 1 reqNeg 100 dbOneCat).2 (by decide)

/-- Claim C3 is false on the code: neither `update_transaction` nor
`update_budget` validates the new category id.  With category 99 absent,
both updates succeed and store 99 instead of rejecting with
CategoryNotFound. -/
theorem C3_counterexample :
    findCategory dbAliceData 99 = none ∧
    (update_transaction 1 1 reqBadCat dbAliceData).map
      (fun p => p.1.category_id) = .ok 99 ∧
    (update_budget 1 1 breqBadCat dbAliceData).map
      (fun p => p.1.category_id) = .ok (some 99) := by decide

/-- Claim C3 (amended): updating a transaction's or budget's category to
an id without a Category row is not rejected: the update succeeds and the
dangling id is stored; category existence is checked only at creation. -/
theorem C3_update_stores_dangling_category (uid tid bid bcid : Nat)
    (req : TransactionCreate) (breq : BudgetCreate) (db : DB)
    (t : Transaction) (b : Budget)
    (htf : findOwnedTransaction db uid tid = some t)
    (hbf : findOwnedBudget db uid bid = some b)
    (hcat : findCategory db req.category_id = none)
    (hbc : breq.category_id = some bcid)
    (hbcat : findCategory db bcid = none) :
    ((update_transaction uid tid req db).map
      (fun p => decide (p.1 ∈ p.2.transactions ∧
                        p.1.category_id = req.category_id)) = .ok true) ∧
    ((update_budget uid bid breq db).map
      (fun p => decide (p.1 ∈ p.2.budgets ∧
                        p.1.category_id = breq.category_id)) = .ok true) := by
  have htf' : List.find? (fun x => decide (x.id = tid ∧ x.user_id = uid))
      db.transactions = some t := htf
  have hbf' : List.find? (fun x => decide (x.id = bid ∧ x.user_id = uid))
      db.budgets = some b := hbf
  have hpt : t.id = tid ∧ t.user_id = uid := by
    have h1 := List.find?_some htf'
    simpa using h1
  have hmt : t ∈ db.transactions := List.mem_of_find?_eq_some htf'
  have hpb : b.id = bid ∧ b.user_id = uid := by
    have h1 := List.find?_some hbf'
    simpa using h1
  have hmb : b ∈ db.budgets := List.mem_of_find?_eq_some hbf'
  constructor
  · simp only [update_transaction, htf, Except.map, Except.ok.injEq,
      decide_eq_true_eq]
    exact ⟨List.mem_map.mpr ⟨t, hmt, by rw [if_pos hpt]⟩, trivial⟩
  · simp only [update_budget, hbf, Except.map, Except.ok.injEq,
      decide_eq_true_eq]
    exact ⟨List.mem_map.mpr ⟨b, hmb, by rw [if_pos hpb]⟩, trivial⟩

/-- Witness for C3 at the concrete database of `C3_counterexample`. -/
theorem C3_witness :
    ((update_transaction 1 1 reqBadCat dbAliceData).map
      (fun p => decide (p.1 ∈ p.2.transactions ∧
                        p.1.category_id = reqBadCat.category_id)) = .ok true) ∧
    ((update_budget 1 1 breqBadCat dbAliceData).map
      (fun p => decide (p.1 ∈ p.2.budgets ∧
                        p.1.category_id = breqBadCat.category_id)) = .ok true) :=
  C3_update_stores_dangling_category 1 1 1 99 reqBadCat breqBadCat dbAliceData
    txnAlice budgetAlice (by decide) (by decide) (by decide) (by decide)
    (by decide)

/-- Claim C4: `dashboard_summary` computes `income_total` as the sum of
amounts of exactly the user's rows with `type = income` and
`expense_total` over exactly the rows with `type = expense` — selection
branches on `type`, never on the sign of the amount, so the two lifetime
totals split the sum over all of the user's rows (last conjunct) — and the
month totals additionally keep only rows with `timestamp ≥ monthStart`,
the first day 00:00 UTC of the current month. -/
theorem C4_dashboard_summary (uid : Nat) (monthStart : Int) (db : DB) :
    (dashboard_summary uid monthStart db).income_total =
      sumAmounts (db.transactions.filter
        (fun t => decide (t.user_id = uid ∧
                          t.type = TransactionType.income))) ∧
    (dashboard_summary uid monthStart db).expense_total =
      sumAmounts (db.transactions.filter
        (fun t => decide (t.user_id = uid ∧
                          t.type = TransactionType.expense))) ∧
    (dashboard_summary uid monthStart db).month_income =
      sumAmounts (db.transactions.filter
        (fun t => decide (t.user_id = uid ∧
                          t.type = TransactionType.income ∧
                          monthStart ≤ t.timestamp))) ∧
    (dashboard_summary uid monthStart db).month_expense =
      sumAmounts (db.transactions.filter
        (fun t => decide (t.user_id = uid ∧
                          t.type = TransactionType.expense ∧
                          monthStart ≤ t.timestamp))) ∧
    (dashboard_summary uid monthStart db).income_total +
        (dashboard_summary uid monthStart db).expense_total =
      sumAmounts (db.transactions.filter
        (fun t => decide (t.user_id = uid))) := by
  refine ⟨?_, ?_, ?_, ?_, ?_⟩ <;>
    simp only [dashboard_summary, pyOr0_sumScalar]
  exact sumAmounts_split_type uid db.transactions

/-- Claim C5 is false on the code at a reachable state: one unvalidated
`update_budget` call on the well-formed `dbAliceData` stores category
id 0 in the budget, and there the `if budget.category_id:` truthiness
guard skips the category filter, so `budget_usage` reports spent 50
(summed across all categories) while the claim's category-restricted
formula gives 0. -/
theorem C5_counterexample :
    (update_budget 1 1 breqZeroCat dbAliceData).map (fun p => p.2) =
      .ok dbZeroCat ∧
    (budget_usage 1 dbZeroCat).map (fun r => r.spent) = [50] ∧
    spentSpec 1 dbZeroCat budgetZeroCat = 0 ∧
    (50 : Int) ≠ 0 := by decide

/-- Claim C5 (amended): each `budget_usage` row of the calling user
reports `spent` equal to the plain sum of the user's expense rows with
`timestamp ≥ startDate` (and `≤ endDate` when set), restricted to the
budget's category only when its id is set and nonzero — a stored
category id 0, reachable through the unvalidated update path, disables
the filter by Python truthiness and the sum spans all categories.  An
empty matching set sums to 0 and nothing clamps the value to the limit.
For every budget whose category id is not 0 this coincides with the
original claim's formula (second conjunct). -/
theorem C5_budget_usage_truthy (uid : Nat) (db : DB) :
    budget_usage uid db =
      (db.budgets.filter (fun b => decide (b.user_id = uid))).map (fun b =>
        { budget_id := b.id
          category_id := b.category_id
          period := b.period
          limit := b.limit
          start_date := b.start_date
          end_date := b.end_date
          spent := spentTruthy uid db b }) ∧
    (∀ b, b.category_id ≠ some 0 →
      spentTruthy uid db b = spentSpec uid db b) := by
  constructor
  · unfold budget_usage
    apply List.map_congr_left
    intro b _
    cases hcid : b.category_id with
    | none =>
      cases he : b.end_date <;>
        simp only [spentTruthy, matchingTxnsTruthy, pyOr0_sumScalar, hcid, he]
    | some cid =>
      cases he : b.end_date <;>
        simp only [spentTruthy, matchingTxnsTruthy, pyOr0_sumScalar, hcid, he]
  · intro b hbz
    cases hcid : b.category_id with
    | none =>
      simp only [spentTruthy, matchingTxnsTruthy, spentSpec, matchingTxns,
        hcid]
    | some cid =>
      have hne : cid ≠ 0 := fun h => hbz (by rw [hcid, h])
      simp only [spentTruthy, matchingTxnsTruthy, spentSpec, matchingTxns,
        hcid, hne, ne_eq, not_false_eq_true, if_true, reduceIte]

/-- Witness for C5: on the two-budget store with nonzero category ids,
the code's rows carry the truthy sums, which there agree with the
original formula; one budget is over its limit (spent 120 against limit
100, unclamped) and the other has no matching rows and reports 0. -/
theorem C5_witness :
    (budget_usage 1 dbBudgets =
      (dbBudgets.budgets.filter (fun b => decide (b.user_id = 1))).map (fun b =>
        { budget_id := b.id
          category_id := b.category_id
          period := b.period
          limit := b.limit
          start_date := b.start_date
          end_date := b.end_date
          spent := spentTruthy 1 dbBudgets b })) ∧
    spentTruthy 1 dbBudgets budgetAlice = spentSpec 1 dbBudgets budgetAlice ∧
    (budget_usage 1 dbBudgets).map (fun r => r.spent) = [120, 0] ∧
    (budget_usage 1 dbBudgets).map (fun r => r.limit) = [100, 50] :=
  ⟨(C5_budget_usage_truthy 1 dbBudgets).1,
   (C5_budget_usage_truthy 1 dbBudgets).2 budgetAlice (by decide),
   by decide, by decide⟩

/-- Claim C6 is false on the code: `create_budget` checks neither the
limit's sign nor the date range.  A request with limit -5 and an end date
(5) strictly before the start date (10) is accepted and persisted. -/
theorem C6_counterexample :
    reqBadBudget.limit ≤ 0 ∧
    reqBadBudget.start_date = 10 ∧
    reqBadBudget.end_date = some 5 ∧
    (5 : Int) < 10 ∧
    (create_budget 1 reqBadBudget dbOneCat).map
      (fun p => p.2.budgets.length) = .ok 1 := by decide

/-- Claim C6 (amended): `create_budget` validates only a provided
category id (404 Category not found when no such row); the limit and the
date pair are stored without validation — any limit, including
non-positive ones, and any end date, including one before the start
date, are accepted and persisted. -/
theorem C6_create_budget (uid : Nat) (req : BudgetCreate) (db : DB) :
    (∀ cid, req.category_id = some cid → findCategory db cid = none →
      create_budget uid req db = .error categoryNotFound) ∧
    ((∀ cid ∈ req.category_id, (findCategory db cid).isSome) →
      create_budget uid req db =
        .ok (newBudget uid req db,
             { db with
               budgets := db.budgets ++ [newBudget uid req db]
               next_budget_id := db.next_budget_id + 1 })) := by
  constructor
  · intro cid hc hn
    simp [create_budget, hc, hn]
  · intro h
    cases hc : req.category_id with
    | none => simp [create_budget, hc, newBudget]
    | some cid =>
      have hs := h cid (by rw [hc]; rfl)
      rcases Option.isSome_iff_exists.mp hs with ⟨c, hfc⟩
      simp [create_budget, hc, hfc, newBudget]

/-- Witness for C6: the invalid request of `C6_counterexample` is stored
verbatim. -/
theorem C6_witness :
    create_budget 1 reqBadBudget dbOneCat =
      .ok (newBudget 1 reqBadBudget dbOneCat,
           { dbOneCat with
             budgets := dbOneCat.budgets ++ [newBudget 1 reqBadBudget dbOneCat]
             next_budget_id := dbOneCat.next_budget_id + 1 }) :=
  (C6_create_budget 1 reqBadBudget dbOneCat).2
    (by intro cid hcid; simp [reqBadBudget] at hcid)

/-- Claim C7: with pairwise-distinct stored emails (the `users.email`
unique constraint), `login` succeeds if and only if some stored user has
exactly the requested email and the password verifies against that
user's digest; every failure — absent email or mismatching password —
returns the one `invalidCredentials` error value, so the two failure
causes are indistinguishable. -/
theorem C7_login (verify : String → String → Bool) (issue : Nat → String)
    (email password : String) (db : DB)
    (huniq : (db.users.map User.email).Nodup) :
    ((∃ u ∈ db.users, u.email = email ∧
        verify password u.hashed_password = true) ↔
      ∃ tok, login verify issue email password db = .ok tok) ∧
    ∀ e, login verify issue email password db = .error e →
      e = invalidCredentials := by
  cases hfind : db.users.find? (fun u => decide (u.email = email)) with
  | none =>
    have hno : ∀ u ∈ db.users, u.email ≠ email := by
      intro u hu
      have hx := List.find?_eq_none.mp hfind u hu
      simpa using hx
    constructor
    · constructor
      · rintro ⟨u, hu, he, _⟩
        exact absurd he (hno u hu)
      · rintro ⟨tok, htok⟩
        rw [login, hfind] at htok
        exact absurd htok (by simp)
    · intro e he
      rw [login, hfind] at he
      have : invalidCredentials = e := by
        simpa using he
      exact this.symm
  | some u =>
    have hpu : u.email = email := by
      have h1 := List.find?_some hfind
      simpa using h1
    have hmu : u ∈ db.users := List.mem_of_find?_eq_some hfind
    by_cases hv : verify password u.hashed_password = true
    · constructor
      · constructor
        · intro _
          refine ⟨⟨issue u.id, "bearer"⟩, ?_⟩
          rw [login, hfind]
          simp [hv]
        · intro _
          exact ⟨u, hmu, hpu, hv⟩
      · intro e he
        rw [login, hfind] at he
        simp [hv] at he
    · constructor
      · constructor
        · rintro ⟨v, hvm, hve, hvv⟩
          have hvu : v = u :=
            List.inj_on_of_nodup_map huniq hvm hmu (hve.trans hpu.symm)
          rw [hvu] at hvv
          exact absurd hvv hv
        · rintro ⟨tok, htok⟩
          rw [login, hfind] at htok
          simp [hv] at htok
      · intro e he
        rw [login, hfind] at he
        have : invalidCredentials = e := by
          simpa [hv] using he
        exact this.symm

/-- Witness for C7 at a one-user store built with the concrete hashing
stand-ins. -/
theorem C7_witness :
    ((∃ u ∈ dbAuth.users, u.email = "alice@example.com" ∧
        verifyW "pw1" u.hashed_password = true) ↔
      ∃ tok, login verifyW issueW "alice@example.com" "pw1" dbAuth = .ok tok) ∧
    ∀ e, login verifyW issueW "alice@example.com" "pw1" dbAuth = .error e →
      e = invalidCredentials :=
  C7_login verifyW issueW "alice@example.com" "pw1" dbAuth (by decide)

/-- Claim C8 is false on the code in its response clause: on success,
`register` answers with a bearer-token object whose serialized fields are
exactly `access_token` and `token_type` — it does not return the created
user (no id, email or creation time in the payload). -/
theorem C8_counterexample :
    (register hashW issueW "new@example.com" "pw" dbOneCat).map
      (fun p => p.1.fields.map Prod.fst) =
      .ok ["access_token", "token_type"] := by decide

/-- Claim C8 (amended): `register` fails with the duplicate-email 400
exactly when a stored user carries the very same email string
(case-sensitive exact match); otherwise it appends exactly one user row
whose stored credential is `hashFn password` — never the plaintext, given
that hashing is not the identity on this password — and responds with a
bearer token rather than the user object, so the digest is not in the
response. -/
theorem C8_register (hashFn : String → String) (issue : Nat → String)
    (email password : String) (db : DB)
    (hne : hashFn password ≠ password) :
    ((∃ u ∈ db.users, u.email = email) →
      register hashFn issue email password db = .error emailAlreadyRegistered) ∧
    ((∀ u ∈ db.users, u.email ≠ email) →
      register hashFn issue email password db =
        .ok (⟨issue db.next_user_id, "bearer"⟩,
             { db with
               users := db.users ++
                 [⟨db.next_user_id, email, hashFn password, none⟩]
               next_user_id := db.next_user_id + 1 }) ∧
      hashFn password ≠ password) := by
  constructor
  · rintro ⟨u, hu, he⟩
    have hsome : (db.users.find? (fun v => decide (v.email = email))).isSome :=
      List.find?_isSome.mpr ⟨u, hu, by simpa using he⟩
    rcases Option.isSome_iff_exists.mp hsome with ⟨v, hv⟩
    rw [register, hv]
  · intro h
    have hnone : db.users.find? (fun v => decide (v.email = email)) = none :=
      List.find?_eq_none.mpr (fun v hv => by simpa using h v hv)
    refine ⟨?_, hne⟩
    rw [register, hnone]

/-- Witness for C8: registering a fresh email on the concrete store. -/
theorem C8_witness :
    register hashW issueW "new@example.com" "pw" dbAuth =
      .ok (⟨issueW dbAuth.next_user_id, "bearer"⟩,
           { dbAuth with
             users := dbAuth.users ++
               [⟨dbAuth.next_user_id, "new@example.com", hashW "pw", none⟩]
             next_user_id := dbAuth.next_user_id + 1 }) ∧
    hashW "pw" ≠ "pw" :=
  (C8_register hashW issueW "new@example.com" "pw" dbAuth (by decide)).2
    (by decide)

/-- Claim C9 is false on the code: the requested limit is applied as
given — 200 yields all 101 rows, beyond the claimed configured maximum
of 100 — and rows with equal timestamps come out in underlying row order
(ids ascending), not id-descending. -/
theorem C9_counterexample :
    (list_transactions 1 0 200 dbMany).length = 101 ∧
    (list_transactions 1 0 2 dbMany).map Transaction.id = [1, 2] := by decide

/-- Claim C9 (amended): `list_transactions` returns only the user's
rows, sorted by timestamp descending (ties keep the underlying row
order), sliced by `skip` and the requested `limit` itself: the response
never exceeds the requested limit, but no configured maximum bounds it
and no id-descending tie-break exists. -/
theorem C9_list_transactions (uid skip limit : Nat) (db : DB) :
    (list_transactions uid skip limit db).length ≤ limit ∧
    (list_transactions uid skip limit db).all
      (fun t => decide (t.user_id = uid)) = true ∧
    (list_transactions uid skip limit db).Pairwise
      (fun a b => b.timestamp ≤ a.timestamp) := by
  simp only [list_transactions]
  refine ⟨List.length_take_le _ _, ?_, ?_⟩
  · rw [List.all_eq_true]
    intro t ht
    have h1 := (List.take_sublist _ _).mem ht
    have h2 := (List.drop_sublist _ _).mem h1
    have h3 := (sortTsDesc_perm _).mem_iff.mp h2
    have h4 := List.of_mem_filter h3
    exact h4
  · exact (pairwise_sortTsDesc _).sublist
      ((List.take_sublist _ _).trans (List.drop_sublist _ _))

/-- Claim C10: a successful `update_transaction` call found a row with
the requested id owned by the caller and produced a row with identical
`id` and `user_id` (ownership never transfers); an omitted timestamp
leaves the stored timestamp unchanged while a supplied one replaces it;
`category_id`, `amount`, `description` and `type` take the request's
values; and the rest of the database — users, categories, budgets, and
every transaction row other than the updated one — is untouched. -/
theorem C10_update_transaction_frame (uid tid : Nat)
    (req : TransactionCreate) (db : DB) (t' : Transaction) (db' : DB)
    (h : update_transaction uid tid req db = .ok (t', db')) :
    ∃ t, findOwnedTransaction db uid tid = some t ∧
      t'.id = t.id ∧ t'.user_id = t.user_id ∧
      t.id = tid ∧ t.user_id = uid ∧
      (req.timestamp = none → t'.timestamp = t.timestamp) ∧
      (∀ ts, req.timestamp = some ts → t'.timestamp = ts) ∧
      t'.category_id = req.category_id ∧ t'.amount = req.amount ∧
      t'.description = req.description ∧ t'.type = req.type ∧
      db'.users = db.users ∧ db'.categories = db.categories ∧
      db'.budgets = db.budgets ∧
      db'.transactions.length = db.transactions.length ∧
      t' ∈ db'.transactions ∧
      (∀ x ∈ db.transactions, ¬(x.id = tid ∧ x.user_id = uid) →
        x ∈ db'.transactions) := by
  unfold update_transaction at h
  cases hf : findOwnedTransaction db uid tid with
  | none =>
    rw [hf] at h
    exact absurd h (by simp)
  | some t =>
    rw [hf] at h
    simp only [Except.ok.injEq, Prod.mk.injEq] at h
    obtain ⟨ht', hdb'⟩ := h
    have hf' : List.find? (fun x => decide (x.id = tid ∧ x.user_id = uid))
        db.transactions = some t := hf
    have hpt : t.id = tid ∧ t.user_id = uid := by
      have h1 := List.find?_some hf'
      simpa using h1
    have hmt : t ∈ db.transactions := List.mem_of_find?_eq_some hf'
    subst ht' hdb'
    refine ⟨t, rfl, rfl, rfl, hpt.1, hpt.2, ?_, ?_, rfl, rfl, rfl, rfl,
      rfl, rfl, rfl, List.length_map _ _, ?_, ?_⟩
    · intro h0
      show req.timestamp.getD t.timestamp = t.timestamp
      rw [h0]
      rfl
    · intro ts hts
      show req.timestamp.getD t.timestamp = ts
      rw [hts]
      rfl
    · exact List.mem_map.mpr ⟨t, hmt, by rw [if_pos hpt]⟩
    · intro x hx hnx
      exact List.mem_map.mpr ⟨x, hx, by rw [if_neg hnx]⟩

/-- Witness for C10: updating the concrete row with a request that omits
the timestamp. -/
theorem C10_witness :
    ∃ t, findOwnedTransaction dbAliceData 1 1 = some t ∧
      txnUpdated.id = t.id ∧ txnUpdated.user_id = t.user_id ∧
      t.id = 1 ∧ t.user_id = 1 ∧
      (reqUpd.timestamp = none → txnUpdated.timestamp = t.timestamp) ∧
      (∀ ts, reqUpd.timestamp = some ts → txnUpdated.timestamp = ts) ∧
      txnUpdated.category_id = reqUpd.category_id ∧
      txnUpdated.amount = reqUpd.amount ∧
      txnUpdated.description = reqUpd.description ∧
      txnUpdated.type = reqUpd.type ∧
      dbAfterUpdate.users = dbAliceData.users ∧
      dbAfterUpdate.categories = dbAliceData.categories ∧
      dbAfterUpdate.budgets = dbAliceData.budgets ∧
      dbAfterUpdate.transactions.length = dbAliceData.transactions.length ∧
      txnUpdated ∈ dbAfterUpdate.transactions ∧
      (∀ x ∈ dbAliceData.transactions, ¬(x.id = 1 ∧ x.user_id = 1) →
        x ∈ dbAfterUpdate.transactions) :=
  C10_update_transaction_frame 1 1 reqUpd dbAliceData txnUpdated dbAfterUpdate
    (by decide)

end FinanceTracker
